import Mathlib

/-!
Verification development for the `mean_modeling` notebook: the
self-contained numerical logic (data generation from a Normal
distribution and empirical summarization) embedded shallowly in Lean.
Every generated double is a rational number, so draws are modelled in ℚ;
the standard deviation needs a square root and therefore lives in ℝ.
-/

namespace CAN7

/-- A pseudo-random source as the notebook obtains it from
`np.random.default_rng()`: `stream k` is the k-th standard-normal
variate the underlying bit generator will deliver, and `pos` counts the
variates already consumed. -/
structure Rng where
  stream : Nat → ℚ
  pos : Nat

/-- `rng.normal mu sigma n` embeds `rng.normal(muTrue, sdTrue, n)` from
the generation cell: an ordered list of `n` draws, the i-th being
`mu + sigma * z_i` for the next standard-normal variate `z_i`, and the
advanced source. -/
def Rng.normal (rng : Rng) (mu sigma : ℚ) (n : Nat) : List ℚ × Rng :=
  ((List.range n).map (fun i => mu + sigma * rng.stream (rng.pos + i)),
   ⟨rng.stream, rng.pos + n⟩)

/-- Modelled from the spec: construction of the random source.  The
notebook calls `np.random.default_rng()` without a seed; the spec
(§4.1, Determinism) requires seeding to be a configurable option of the
interface, which `default_rng` exposes as an `Option Nat` argument.
`seedStream s` is the standard-normal stream determined by seed `s`;
`entropy` is the stream drawn from OS entropy when no seed is given. -/
def default_rng (seed : Option Nat) (seedStream : Nat → Nat → ℚ)
    (entropy : Nat → ℚ) : Rng :=
  match seed with
  | some s => ⟨seedStream s, 0⟩
  | none => ⟨entropy, 0⟩

/-- Error kind of the data-generation operation (spec §7). -/
inductive GenError where
  | invalidParameter
deriving DecidableEq

/-- Error kind of the empirical summarizer (spec §7). -/
inductive SumError where
  | emptyInput
deriving DecidableEq

/-- Modelled from the spec: the data-generation operation of §4.1.  The
notebook only issues the inline call `rng.normal(muTrue, sdTrue, n)`
with fixed valid literals; the validating wrapper that raises
InvalidParameter when `n <= 0` or `sigma < 0` exists only in the spec
and is modelled from its words. -/
def generate (n : ℤ) (mu sigma : ℚ) (rng : Rng) :
    Except GenError (List ℚ × Rng) :=
  if n ≤ 0 ∨ sigma < 0 then Except.error GenError.invalidParameter
  else Except.ok (rng.normal mu sigma n.toNat)

/-- `data.mean()`: the NumPy arithmetic mean, sum divided by length. -/
def npMean (xs : List ℚ) : ℚ := xs.sum / xs.length

/-- The quantity under the square root in `data.std()` with the NumPy
default `ddof=0`: the mean of the squared deviations from the mean. -/
def npVar (xs : List ℚ) : ℚ :=
  (xs.map (fun x => (x - npMean xs) ^ 2)).sum / xs.length

/-- `data.std()` with the NumPy default `ddof=0`: the population
standard deviation, square root of `npVar`. -/
noncomputable def npStd (xs : List ℚ) : ℝ := Real.sqrt (npVar xs)

/-- The population variance written as the spec states the formula in
§4.2: average squared deviation from the arithmetic average. -/
def specPopVar (xs : List ℚ) : ℚ :=
  (xs.map (fun x => (x - xs.sum / xs.length) ^ 2)).sum / xs.length

/-- Modelled from the spec: the empirical summarizer of §4.2.  The
notebook only issues the inline calls `data.mean()` and `data.std()`;
the wrapper that raises EmptyInputError on a zero-length sequence
exists only in the spec and is modelled from its words.  The statistics
themselves are the embedded NumPy ones. -/
noncomputable def summarize (xs : List ℚ) : Except SumError (ℚ × ℝ) :=
  if xs = [] then Except.error SumError.emptyInput
  else Except.ok (npMean xs, npStd xs)

/-- `.round(2)` on a rational value: round to two decimal places. -/
def round2 (q : ℚ) : ℚ := (round (q * 100) : ℤ) / 100

/-- `.round(2)` on a real value: round to two decimal places. -/
noncomputable def roundR2 (x : ℝ) : ℝ := ((round (x * 100) : ℤ) : ℝ) / 100

/-- One plotting call issued by the notebook, recorded with the values
it was handed. -/
inductive PlotCmd where
  | hist (values : List ℚ) (bins : Nat)
  | vlinesM (x : ℚ) (label : ℚ)
  | vlinesSD (lo hi : ℝ) (label : ℝ)
  | legend

/-- The notebook state threaded through the cells: the generated
sample, the figures produced so far, and the inference-data object
returned by the external collaborator once sampling has run.  `I` is
the opaque type of that object. -/
structure NotebookState (I : Type) where
  data : List ℚ
  figs : List PlotCmd
  idata : Option I

/-- The histogram/summarization cell: `plt.hist(data, bins=30, ...)`,
a vertical line at `data.mean()` labelled with `data.mean().round(2)`,
and two lines at `data.mean()-data.std()` and `data.mean()+data.std()`
labelled with `data.std().round(2)`.  Each textual occurrence of
`data.mean()` and `data.std()` is a separate evaluation. -/
noncomputable def histCell {I : Type} (s : NotebookState I) : NotebookState I :=
  { s with figs := s.figs ++
      [PlotCmd.hist s.data 30,
       PlotCmd.vlinesM (npMean s.data) (round2 (npMean s.data)),
       PlotCmd.vlinesSD ((npMean s.data : ℝ) - npStd s.data)
         ((npMean s.data : ℝ) + npStd s.data) (roundR2 (npStd s.data)),
       PlotCmd.legend] }

/-- The inference cell `inferenceData = pm.sample(model=meanModel)`:
the external collaborator `sample` reads the observed data and returns
an opaque inference-data object. -/
def sampleCell {I : Type} (sample : List ℚ → I) (s : NotebookState I) :
    NotebookState I :=
  { s with idata := some (sample s.data) }

/-- The posterior-predictive comparison cell: histogram of the
posterior-predictive draws extracted from the inference data by the
external collaborator `ppcDraws`, then `plt.hist(data, ...)` again. -/
noncomputable def ppcCell {I : Type} (ppcDraws : I → List ℚ)
    (s : NotebookState I) : NotebookState I :=
  match s.idata with
  | some i => { s with figs := s.figs ++
      [PlotCmd.hist (ppcDraws i) 50, PlotCmd.hist s.data 50, PlotCmd.legend] }
  | none => s

/-- A concrete random source used to instantiate theorems. -/
def rng0 : Rng := ⟨fun _ => 0, 0⟩

/-- A concrete notebook state used to instantiate theorems. -/
def nb0 : NotebookState Unit := ⟨[1, 2], [], none⟩

/-- The variance under the square root of `npStd` is non-negative. -/
theorem npVar_nonneg (xs : List ℚ) : 0 ≤ npVar xs := by
  unfold npVar
  apply div_nonneg
  · apply List.sum_nonneg
    intro x hx
    obtain ⟨y, _, rfl⟩ := List.mem_map.mp hx
    positivity
  · positivity

/-- Claim C1: `generate` fails with InvalidParameter exactly when
`n <= 0` or `sigma < 0` (in particular at `n = -1` and at
`sigma = -1`), and succeeds for every `n > 0`, `sigma >= 0`. -/
theorem generate_invalidParameter (n : ℤ) (mu sigma : ℚ) (rng : Rng) :
    (generate n mu sigma rng = Except.error GenError.invalidParameter
      ↔ n ≤ 0 ∨ sigma < 0) ∧
    generate (-1) mu sigma rng = Except.error GenError.invalidParameter ∧
    generate n mu (-1) rng = Except.error GenError.invalidParameter ∧
    (0 < n → 0 ≤ sigma →
      ∃ xs rng2, generate n mu sigma rng = Except.ok (xs, rng2)) := by
  refine ⟨?_, ?_, ?_, ?_⟩
  · unfold generate
    split <;> simp_all
  · have h : (-1 : ℤ) ≤ 0 ∨ sigma < 0 := Or.inl (by norm_num)
    simp [generate, h]
  · have h : n ≤ 0 ∨ (-1 : ℚ) < 0 := Or.inr (by norm_num)
    simp [generate, h]
  · intro hn hs
    refine ⟨(rng.normal mu sigma n.toNat).1, (rng.normal mu sigma n.toNat).2, ?_⟩
    simp [generate, not_le.mpr hn, not_lt.mpr hs]

/-- Witness for C1 at `n = 3`, `mu = 0`, `sigma = 1`. -/
theorem generate_invalidParameter_witness :
    (0 : ℤ) < 3 ∧ (0 : ℚ) ≤ 1 ∧
    ∃ xs rng2, generate 3 0 1 rng0 = Except.ok (xs, rng2) :=
  ⟨by norm_num, by norm_num,
   (generate_invalidParameter 3 0 1 rng0).2.2.2 (by norm_num) (by norm_num)⟩

/-- Claim C5: for every valid `n > 0`, `sigma >= 0`, `generate`
produces an ordered sequence of exactly `n` values. -/
theorem generate_length (n : ℤ) (mu sigma : ℚ) (rng : Rng)
    (hn : 0 < n) (hs : 0 ≤ sigma) :
    ∃ xs rng2, generate n mu sigma rng = Except.ok (xs, rng2) ∧
      (xs.length : ℤ) = n := by
  refine ⟨(rng.normal mu sigma n.toNat).1, (rng.normal mu sigma n.toNat).2, ?_, ?_⟩
  · simp [generate, not_le.mpr hn, not_lt.mpr hs]
  · simp [Rng.normal]
    omega

/-- Witness for C5 at `n = 3`, `mu = 0`, `sigma = 1`. -/
theorem generate_length_witness :
    (0 : ℤ) < 3 ∧ (0 : ℚ) ≤ 1 ∧
    ∃ xs rng2, generate 3 0 1 rng0 = Except.ok (xs, rng2) ∧
      (xs.length : ℤ) = 3 :=
  ⟨by norm_num, by norm_num, generate_length 3 0 1 rng0 (by norm_num) (by norm_num)⟩

/-- Claim C6: with `sigma = 0` and `n > 0`, generation succeeds with a
constant sequence of `n` values all equal to `mu` exactly. -/
theorem generate_sigma_zero (n : ℤ) (mu : ℚ) (rng : Rng) (hn : 0 < n) :
    ∃ xs rng2, generate n mu 0 rng = Except.ok (xs, rng2) ∧
      (xs.length : ℤ) = n ∧ ∀ x ∈ xs, x = mu := by
  refine ⟨(rng.normal mu 0 n.toNat).1, (rng.normal mu 0 n.toNat).2, ?_, ?_, ?_⟩
  · simp [generate, not_le.mpr hn]
  · simp [Rng.normal]
    omega
  · intro x hx
    obtain ⟨i, _, rfl⟩ := List.mem_map.mp hx
    simp

/-- Witness for C6 at `n = 2`, `mu = 5`. -/
theorem generate_sigma_zero_witness :
    (0 : ℤ) < 2 ∧
    ∃ xs rng2, generate 2 5 0 rng0 = Except.ok (xs, rng2) ∧
      (xs.length : ℤ) = 2 ∧ ∀ x ∈ xs, x = 5 :=
  ⟨by norm_num, generate_sigma_zero 2 5 rng0 (by norm_num)⟩

/-- Claim C3: generation from a source built with a fixed explicit seed
is reproducible (it does not depend on the entropy input, so repeated
runs with identical parameters give identical results), while without a
seed the result depends on the entropy stream, which can differ between
invocations; seeding is a configurable `Option` argument of
`default_rng`, not assumed behavior. -/
theorem seeded_generation_reproducible (seedStream : Nat → Nat → ℚ)
    (e1 e2 : Nat → ℚ) (seed : Nat) (n : ℤ) (mu sigma : ℚ) :
    generate n mu sigma (default_rng (some seed) seedStream e1)
      = generate n mu sigma (default_rng (some seed) seedStream e2) ∧
    ∃ f g : Nat → ℚ,
      (Rng.normal (default_rng none seedStream f) 0 1 1).1
        ≠ (Rng.normal (default_rng none seedStream g) 0 1 1).1 := by
  constructor
  · rfl
  · refine ⟨fun _ => 0, fun _ => 1, ?_⟩
    simp [Rng.normal, default_rng, List.range_succ]

/-- Claim C2: `summarize` fails with EmptyInputError exactly on the
empty sequence, and returns the (mean, standard deviation) pair on
every non-empty sequence. -/
theorem summarize_emptyInput (xs : List ℚ) :
    (summarize xs = Except.error SumError.emptyInput ↔ xs = []) ∧
    (xs ≠ [] → summarize xs = Except.ok (npMean xs, npStd xs)) := by
  unfold summarize
  constructor
  · split <;> simp_all
  · intro h
    simp [h]

/-- Witness for C2: the empty list errors, `[1, 2]` succeeds. -/
theorem summarize_emptyInput_witness :
    summarize ([] : List ℚ) = Except.error SumError.emptyInput ∧
    ([(1 : ℚ), 2] ≠ []) ∧
    summarize [(1 : ℚ), 2] = Except.ok (npMean [(1 : ℚ), 2], npStd [(1 : ℚ), 2]) :=
  ⟨(summarize_emptyInput []).1.mpr rfl, by simp,
   (summarize_emptyInput [(1 : ℚ), 2]).2 (by simp)⟩

/-- Claim C4: on every non-empty sequence `summarize` returns the
arithmetic average as mean and the population (`ddof=0`) standard
deviation, the formula the spec states; on the reference input
`[1, 2, 3]` the mean is exactly `2` and the standard deviation lies
strictly between `0.816` and `0.817`. -/
theorem summarize_reference (xs : List ℚ) (h : xs ≠ []) :
    summarize xs = Except.ok (npMean xs, npStd xs) ∧
    npMean xs = xs.sum / xs.length ∧
    npVar xs = specPopVar xs ∧
    npStd xs ^ 2 = (npVar xs : ℝ) ∧
    npMean [(1 : ℚ), 2, 3] = 2 ∧
    (0.816 : ℝ) < npStd [(1 : ℚ), 2, 3] ∧ npStd [(1 : ℚ), 2, 3] < 0.817 := by
  have hvar : npVar [(1 : ℚ), 2, 3] = 2 / 3 := by
    norm_num [npVar, npMean]
  have hcast : ((npVar [(1 : ℚ), 2, 3] : ℚ) : ℝ) = 2 / 3 := by
    rw [hvar]; norm_num
  refine ⟨?_, rfl, rfl, ?_, ?_, ?_, ?_⟩
  · simp [summarize, h]
  · exact Real.sq_sqrt (by exact_mod_cast npVar_nonneg xs)
  · norm_num [npMean]
  · rw [npStd, hcast]
    rw [Real.lt_sqrt (by norm_num)]
    norm_num
  · rw [npStd, hcast]
    rw [Real.sqrt_lt' (by norm_num)]
    norm_num

/-- Witness for C4 at the reference input `[1, 2, 3]`. -/
theorem summarize_reference_witness :
    ([(1 : ℚ), 2, 3] ≠ []) ∧
    (summarize [(1 : ℚ), 2, 3]
        = Except.ok (npMean [(1 : ℚ), 2, 3], npStd [(1 : ℚ), 2, 3]) ∧
      npMean [(1 : ℚ), 2, 3] = [(1 : ℚ), 2, 3].sum / ([(1 : ℚ), 2, 3] : List ℚ).length ∧
      npVar [(1 : ℚ), 2, 3] = specPopVar [(1 : ℚ), 2, 3] ∧
      npStd [(1 : ℚ), 2, 3] ^ 2 = (npVar [(1 : ℚ), 2, 3] : ℝ) ∧
      npMean [(1 : ℚ), 2, 3] = 2 ∧
      (0.816 : ℝ) < npStd [(1 : ℚ), 2, 3] ∧ npStd [(1 : ℚ), 2, 3] < 0.817) :=
  ⟨by simp, summarize_reference [(1 : ℚ), 2, 3] (by simp)⟩

/-- Claim C9: on every non-empty sequence the standard deviation is
non-negative, so the two reference lines at `mean - sd` and `mean + sd`
bracket the mean and are symmetric about it. -/
theorem std_brackets_mean (xs : List ℚ) (_h : xs ≠ []) :
    0 ≤ npStd xs ∧
    (npMean xs : ℝ) - npStd xs ≤ (npMean xs : ℝ) ∧
    (npMean xs : ℝ) ≤ (npMean xs : ℝ) + npStd xs ∧
    (npMean xs : ℝ) - ((npMean xs : ℝ) - npStd xs)
      = ((npMean xs : ℝ) + npStd xs) - (npMean xs : ℝ) := by
  have h0 : 0 ≤ npStd xs := Real.sqrt_nonneg _
  exact ⟨h0, by linarith, by linarith, by ring⟩

/-- Witness for C9 at `[1, 2, 3]`. -/
theorem std_brackets_mean_witness :
    ([(1 : ℚ), 2, 3] ≠ []) ∧
    (0 ≤ npStd [(1 : ℚ), 2, 3] ∧
      (npMean [(1 : ℚ), 2, 3] : ℝ) - npStd [(1 : ℚ), 2, 3]
        ≤ (npMean [(1 : ℚ), 2, 3] : ℝ) ∧
      (npMean [(1 : ℚ), 2, 3] : ℝ)
        ≤ (npMean [(1 : ℚ), 2, 3] : ℝ) + npStd [(1 : ℚ), 2, 3] ∧
      (npMean [(1 : ℚ), 2, 3] : ℝ)
          - ((npMean [(1 : ℚ), 2, 3] : ℝ) - npStd [(1 : ℚ), 2, 3])
        = ((npMean [(1 : ℚ), 2, 3] : ℝ) + npStd [(1 : ℚ), 2, 3])
          - (npMean [(1 : ℚ), 2, 3] : ℝ)) :=
  ⟨by simp, std_brackets_mean [(1 : ℚ), 2, 3] (by simp)⟩

/-- Claim C8: the sample is immutable once generated: running the
histogram/summarization cell, the inference cell, and the
posterior-predictive comparison cell leaves the data sequence, its
length, and every element unchanged. -/
theorem sample_immutable (I : Type) (sample : List ℚ → I)
    (ppcDraws : I → List ℚ) (s : NotebookState I) :
    (ppcCell ppcDraws (sampleCell sample (histCell s))).data = s.data ∧
    (ppcCell ppcDraws (sampleCell sample (histCell s))).data.length
      = s.data.length ∧
    ∀ k, (ppcCell ppcDraws (sampleCell sample (histCell s))).data.get? k
      = s.data.get? k := by
  have hd : (ppcCell ppcDraws (sampleCell sample (histCell s))).data = s.data := rfl
  exact ⟨hd, by rw [hd], fun k => by rw [hd]⟩

/-- Claim C10: the summarizer is deterministic: every textual
occurrence of `data.mean()` in the plotting cell denotes the same value
`npMean` of the unchanged sequence, and both occurrences of
`data.std()` denote the same value `npStd`, so the recorded figure is a
function of the sequence alone. -/
theorem histCell_single_valued (I : Type) (s : NotebookState I)
    (xs : List ℚ) (h : s.data = xs) :
    (histCell s).figs = s.figs ++
      [PlotCmd.hist xs 30,
       PlotCmd.vlinesM (npMean xs) (round2 (npMean xs)),
       PlotCmd.vlinesSD ((npMean xs : ℝ) - npStd xs)
         ((npMean xs : ℝ) + npStd xs) (roundR2 (npStd xs)),
       PlotCmd.legend] := by
  subst h
  rfl

/-- Witness for C10 at a concrete state holding `[1, 2]`. -/
theorem histCell_single_valued_witness :
    nb0.data = [(1 : ℚ), 2] ∧
    (histCell nb0).figs = nb0.figs ++
      [PlotCmd.hist [(1 : ℚ), 2] 30,
       PlotCmd.vlinesM (npMean [(1 : ℚ), 2]) (round2 (npMean [(1 : ℚ), 2])),
       PlotCmd.vlinesSD ((npMean [(1 : ℚ), 2] : ℝ) - npStd [(1 : ℚ), 2])
         ((npMean [(1 : ℚ), 2] : ℝ) + npStd [(1 : ℚ), 2])
         (roundR2 (npStd [(1 : ℚ), 2])),
       PlotCmd.legend] :=
  ⟨rfl, histCell_single_valued Unit nb0 [(1 : ℚ), 2] rfl⟩

end CAN7
